import Mathlib

/-!
Verification of the ECG prediction backend (`backend/predict.js`).

This file shallowly embeds the data model and operations of the predict
route: the JSON value model and JavaScript coercion helpers that
`validatePredictionResult` relies on, the `runPython` child-process
helper, the route handler itself, the multer upload gate, the periodic
upload cleanup, and the bounded-concurrency job queue (`p-queue` with
`concurrency: 2`).  Theorems about the claims of the specification
follow the definitions.
-/

/-- JSON-like values as produced by `JSON.parse` plus the JavaScript
`undefined` value (the result of reading an absent property).  JSON
arrays do not occur in the prediction payloads and are not modelled. -/
inductive JValue where
  | undefined : JValue
  | null : JValue
  | bool : Bool → JValue
  | num : ℚ → JValue
  | str : String → JValue
  | obj : List (String × JValue) → JValue

/-- Property lookup on an object field list; absent keys read as
`undefined`, as in JavaScript. -/
def lookupField : List (String × JValue) → String → JValue
  | [], _ => JValue.undefined
  | (k, v) :: t, key => if k = key then v else lookupField t key

/-- Property access `data.key`: `undefined` off objects. -/
def getField : JValue → String → JValue
  | JValue.obj fs, key => lookupField fs key
  | _, _ => JValue.undefined

/-- Property assignment on a field list: overwrite in place when the key
exists, append otherwise (JavaScript property-insertion order). -/
def setFieldList : List (String × JValue) → String → JValue → List (String × JValue)
  | [], k, v => [(k, v)]
  | (k0, v0) :: t, k, v =>
    if k0 = k then (k0, v) :: t else (k0, v0) :: setFieldList t k v

/-- Property assignment `data.key = v` (used by the route for
`jsonData.imagePath` and `jsonData.imageBase64`).  The route only
assigns on payloads that passed validation, hence on objects. -/
def objSet : JValue → String → JValue → JValue
  | JValue.obj fs, k, v => JValue.obj (setFieldList fs k v)
  | w, _, _ => w

/-- The keys of an object value, in order. -/
def objKeys : JValue → List String
  | JValue.obj fs => fs.map (fun p => p.1)
  | _ => []

/-- JavaScript truthiness. -/
def jsTruthy : JValue → Bool
  | JValue.undefined => false
  | JValue.null => false
  | JValue.bool b => b
  | JValue.num q => q != 0
  | JValue.str s => s != ""
  | JValue.obj _ => true

/-- JavaScript `typeof` (note `typeof null` is `"object"`). -/
def jsTypeof : JValue → String
  | JValue.undefined => "undefined"
  | JValue.null => "object"
  | JValue.bool _ => "boolean"
  | JValue.num _ => "number"
  | JValue.str _ => "string"
  | JValue.obj _ => "object"

/-- The `||` operator on values: the left operand when truthy. -/
def jsOr (a b : JValue) : JValue := if jsTruthy a then a else b

/-- The `??` (nullish coalescing) operator. -/
def jsNullish (a b : JValue) : JValue :=
  match a with
  | JValue.undefined => b
  | JValue.null => b
  | _ => a

/-- Whether a value is the JavaScript `undefined` value. -/
def isUndef : JValue → Bool
  | JValue.undefined => true
  | _ => false

/-- ASCII whitespace as stripped by `String.prototype.trim` (the
exotic Unicode space characters do not occur in the payloads). -/
def isWsChar (c : Char) : Bool := c = ' ' || c = '\t' || c = '\n' || c = '\r'

/-- `trim()` on the character list: strip leading and trailing
whitespace. -/
def trimChars (cs : List Char) : List Char :=
  ((cs.dropWhile isWsChar).reverse.dropWhile isWsChar).reverse

/-- JavaScript `s.trim()`. -/
def jsTrim (s : String) : String := String.mk (trimChars s.toList)

def isAsciiDigit (c : Char) : Bool := '0' ≤ c && c ≤ '9'

/-- Recognizer for plain decimal numeric literals (optional sign, digits,
at most one decimal point).  This is the fragment of JavaScript numeric
string syntax relevant to the prediction payloads. -/
def isDecimalLit (cs : List Char) : Bool :=
  let body :=
    match cs with
    | c :: t => if c = '-' || c = '+' then t else cs
    | [] => cs
  !body.isEmpty
    && body.all (fun c => isAsciiDigit c || c = '.')
    && body.any isAsciiDigit
    && List.count '.' body ≤ 1

/-- `isNaN(Number(s))` for a string `s`: a blank string converts to `0`
(not NaN); otherwise NaN exactly when the text is not numeric. -/
def jsStrNumberIsNaN (s : String) : Bool :=
  let t := trimChars s.toList
  if t.isEmpty then false else !isDecimalLit t

/-- `isNaN(Number(v))`: `undefined` ↦ NaN, `null` ↦ 0, booleans ↦ 0/1,
numbers are never NaN, strings per the numeric syntax, plain objects ↦
NaN. -/
def jsNumberIsNaN : JValue → Bool
  | JValue.undefined => true
  | JValue.null => false
  | JValue.bool _ => false
  | JValue.num _ => false
  | JValue.str s => jsStrNumberIsNaN s
  | JValue.obj _ => true

/-- `validatePredictionResult` from `backend/predict.js`: basic shape
validation of the Python prediction payload.  Returns `some message` on
rejection and `none` when the payload is accepted. -/
def validatePredictionResult (data : JValue) : Option String :=
  if !jsTruthy data || jsTypeof data != "object" then
    some "Result is not an object"
  else
    let cls := jsOr (getField data "predictedClass") (getField data "predicted_class")
    let lvl := jsOr (getField data "riskLevel") (getField data "risk_level")
    let score := jsNullish (getField data "riskScore") (getField data "risk_score")
    let confidence := getField data "confidence"
    let probabilities := getField data "probabilities"
    if !jsTruthy cls || jsTypeof cls != "string" then
      some "predictedClass missing or invalid"
    else if !jsTruthy lvl || jsTypeof lvl != "string" then
      some "riskLevel missing or invalid"
    else if isUndef score || jsNumberIsNaN score then
      some "riskScore missing or invalid"
    else if isUndef confidence || jsNumberIsNaN confidence then
      some "confidence missing or invalid"
    else if jsTruthy probabilities && jsTypeof probabilities != "object" then
      some "probabilities must be an object when provided"
    else
      none

/-- One complete run of the Python child process spawned by `runPython`:
whether the spawn itself failed, the exit code reported by the `close`
event (`null` exits from signals are out of the modelled domain), the
chunks received on stdout and stderr, and the wall-clock duration of the
run.  The duration is recorded so that timeout behaviour can be stated;
`runPython` itself installs no timer. -/
structure ChildRun where
  spawnError : Option String
  exitCode : Int
  stdoutChunks : List String
  stderrChunks : List String
  durationMs : Nat

/-- The argv with which `runPython script args` spawns the interpreter:
`spawn(pythonPath, [script, ...args])`. -/
def runPythonArgv (pythonPath script : String) (args : List String) : List String :=
  pythonPath :: script :: args

/-- Settlement of the `runPython` promise: a spawn error rejects with
`Failed to spawn Python: …`; a non-zero exit code rejects with the code
and the accumulated stderr; a zero exit resolves with the trimmed
accumulated stdout.  No other event settles the promise. -/
def runPythonResult (r : ChildRun) : Except String String :=
  match r.spawnError with
  | some e => Except.error ("Failed to spawn Python: " ++ e)
  | none =>
    let output := String.join r.stdoutChunks
    let errors := String.join r.stderrChunks
    if r.exitCode != 0 then
      Except.error ("Python exited with code " ++ toString r.exitCode ++ "\n" ++ errors)
    else
      Except.ok (jsTrim output)

/-- Filesystem and process effects performed by the predict route. -/
inductive FsEffect where
  | readFile (path : String)
  | spawnPy (script : String) (args : List String)
  | unlink (path : String)
deriving DecidableEq

/-- The stored upload as produced by multer: on-disk path and generated
filename. -/
structure UploadFile where
  path : String
  filename : String

/-- The HTTP outcome of one request: status code, JSON body, and the
effects performed while handling it. -/
structure HandlerResult where
  status : Nat
  body : JValue
  effects : List FsEffect

/-- `path.join(process.cwd(), "ml", "predict_real.py")`. -/
def predictScriptPath (cwd : String) : String := cwd ++ "/ml/predict_real.py"

/-- The predict route handler (`router.post("/")` in
`backend/predict.js`).  `outcome` is the settlement of the queued
`runPython` call and `parsed` the result of `JSON.parse` on the resolved
output (`none` when parsing throws).  `fileBase64` is the base64 text
read from the stored upload. -/
def predictHandler (cwd : String) (file : Option UploadFile) (fileBase64 : String)
    (outcome : Except String String) (parsed : Option JValue) : HandlerResult :=
  match file with
  | none =>
    ⟨400, JValue.obj [("status", JValue.str "error"),
                      ("message", JValue.str "No ECG image uploaded")], []⟩
  | some f =>
    let imgOSPath := f.path
    let imgPublicPath := "/uploads/" ++ f.filename
    let imageBase64 := "data:image/png;base64," ++ fileBase64
    let effects := [FsEffect.readFile imgOSPath,
                    FsEffect.spawnPy (predictScriptPath cwd) [imgOSPath]]
    match outcome with
    | Except.error e =>
      ⟨500, JValue.obj [("status", JValue.str "error"),
                        ("message", JValue.str "Prediction failed"),
                        ("details", JValue.str e)], effects⟩
    | Except.ok rawOutput =>
      match parsed with
      | none =>
        ⟨500, JValue.obj [("status", JValue.str "error"),
                          ("message", JValue.str "Invalid JSON returned by Python"),
                          ("pythonOutput", JValue.str rawOutput)], effects⟩
      | some jsonData =>
        match validatePredictionResult jsonData with
        | some verr =>
          ⟨500, JValue.obj [("status", JValue.str "error"),
                            ("message", JValue.str "Invalid prediction payload"),
                            ("details", JValue.str verr)], effects⟩
        | none =>
          let result := objSet (objSet jsonData "imagePath" (JValue.str imgPublicPath))
                          "imageBase64" (JValue.str imageBase64)
          ⟨200, JValue.obj [("status", JValue.str "success"),
                            ("result", result)], effects⟩

/-- Whether a list contains another as a contiguous sublist. -/
def listHasSub (needle : List Char) : List Char → Bool
  | [] => needle.isEmpty
  | c :: t => List.isPrefixOf needle (c :: t) || listHasSub needle t

/-- Substring containment on strings. -/
def strContains (hay needle : String) : Bool :=
  listHasSub needle.toList hay.toList

/-- The regular expression test from the multer `fileFilter`:
a match of the pattern alternating over jpeg, jpg, png and gif is a
substring containment of one of the four alternatives. -/
def allowedTypesTest (s : String) : Bool :=
  strContains s "jpeg" || strContains s "jpg" || strContains s "png" || strContains s "gif"

/-- Index of the last occurrence of a character, if any. -/
def lastIdxOf (c : Char) : List Char → Option Nat
  | [] => none
  | a :: t =>
    match lastIdxOf c t with
    | some i => some (i + 1)
    | none => if a = c then some 0 else none

/-- `path.extname`: the suffix of the last path segment from its last
dot, empty when there is no dot, when the dot leads the segment, or when
the segment is exactly two dots. -/
def extname (p : String) : String :=
  let cs := p.toList
  let base :=
    match lastIdxOf '/' cs with
    | some i => cs.drop (i + 1)
    | none => cs
  match lastIdxOf '.' base with
  | none => ""
  | some 0 => ""
  | some i => if base = ['.', '.'] then "" else String.mk (base.drop i)

/-- ASCII lowercasing, as applied to the extension in the filter. -/
def toLowerStr (s : String) : String := String.mk (s.toList.map Char.toLower)

/-- The multer `fileFilter` acceptance condition: the lowercased
original-name extension and the declared MIME type both pass the
allowed-types test. -/
def fileFilterAccepts (originalname mimetype : String) : Bool :=
  allowedTypesTest (toLowerStr (extname originalname)) && allowedTypesTest mimetype

/-- The configured multer size limit: `10 * 1024 * 1024` bytes. -/
def maxFileSizeBytes : Nat := 10 * 1024 * 1024

/-- The two ways the multer middleware rejects an upload. -/
inductive MulterError where
  | fileFilterRejected : MulterError
  | limitFileSize : MulterError
deriving DecidableEq

/-- The multer middleware outcome for an upload: rejection by the
`fileFilter` when either test fails, rejection with `LIMIT_FILE_SIZE`
when the file exceeds the configured limit, acceptance otherwise. -/
def multerOutcome (originalname mimetype : String) (size : Nat) : Option MulterError :=
  if !fileFilterAccepts originalname mimetype then some MulterError.fileFilterRejected
  else if size > maxFileSizeBytes then some MulterError.limitFileSize
  else none

/-- The global error handler in `server.js` as it applies to multer
errors: `LIMIT_FILE_SIZE` yields a 400 response, any other middleware
error a 500 response.  No route effects are performed. -/
def globalErrorResponse : MulterError → HandlerResult
  | MulterError.limitFileSize =>
    ⟨400, JValue.obj [("success", JValue.bool false),
                      ("message", JValue.str "File too large. Max 10MB.")], []⟩
  | MulterError.fileFilterRejected =>
    ⟨500, JValue.obj [("success", JValue.bool false),
                      ("message", JValue.str "Internal server error")], []⟩

/-- One whole request to the predict endpoint: the multer middleware
runs first, and only an accepted upload reaches the route handler. -/
def predictRequest (cwd originalname mimetype : String) (size : Nat)
    (stored : UploadFile) (fileBase64 : String)
    (outcome : Except String String) (parsed : Option JValue) : HandlerResult :=
  match multerOutcome originalname mimetype size with
  | some e => globalErrorResponse e
  | none => predictHandler cwd (some stored) fileBase64 outcome parsed

/-- `MAX_FILE_AGE_MS`: one day in milliseconds. -/
def MAX_FILE_AGE_MS : Int := 24 * 60 * 60 * 1000

/-- `cleanOldUploads`: given the current time and the upload directory
listing with each file's mtime, the files that get unlinked are exactly
those strictly older than the one-day cutoff. -/
def cleanOldUploads (now : Int) (files : List (String × Int)) : List String :=
  (files.filter (fun f => f.2 < now - MAX_FILE_AGE_MS)).map (fun f => f.1)

/-- The interval of the periodic cleanup timer, in milliseconds. -/
def cleanupIntervalMs : Nat := 12 * 60 * 60 * 1000

/-- The `concurrency` option of the `mlQueue` (`new PQueue({ concurrency: 2 })`). -/
def mlQueueConcurrency : Nat := 2

/-- The `timeout` option of the `mlQueue`: not set, so no per-job
timeout is configured on the queue. -/
def mlQueueTimeoutMs : Option Nat := none

/-- State of the bounded-concurrency queue: the number of running jobs,
the waiting jobs in queue order, and the history of started and
submitted jobs in order.  Models the `p-queue` dependency as
instantiated in `predict.js`. -/
structure SchedState where
  running : Nat
  waiting : List Nat
  started : List Nat
  submitted : List Nat

/-- Queue events: `add j` submits job `j` (`mlQueue.add`), `finish`
completes one running job. -/
inductive SchedEvent where
  | add : Nat → SchedEvent
  | finish : SchedEvent

/-- One step of the queue: an added job starts immediately when fewer
than `concurrency` jobs run, and is appended to the waiting queue
otherwise; a completion starts the head of the waiting queue, if any. -/
def schedStep (s : SchedState) : SchedEvent → SchedState
  | SchedEvent.add j =>
    if s.running < mlQueueConcurrency then
      { s with running := s.running + 1,
               started := s.started ++ [j],
               submitted := s.submitted ++ [j] }
    else
      { s with waiting := s.waiting ++ [j],
               submitted := s.submitted ++ [j] }
  | SchedEvent.finish =>
    match s.running with
    | 0 => s
    | r + 1 =>
      match s.waiting with
      | [] => { s with running := r }
      | j :: rest =>
        { s with running := r + 1,
                 waiting := rest,
                 started := s.started ++ [j] }

/-- The empty queue. -/
def schedInit : SchedState := ⟨0, [], [], []⟩

/-- Running the queue on a sequence of events from the empty state. -/
def schedRun (events : List SchedEvent) : SchedState :=
  events.foldl schedStep schedInit

/-- Queue invariant: the concurrency bound holds, jobs start in
submission order (started history followed by the waiting queue is the
submission history), and the waiting queue is nonempty only when the
bound is saturated. -/
def SchedInv (s : SchedState) : Prop :=
  s.running ≤ mlQueueConcurrency
    ∧ s.started ++ s.waiting = s.submitted
    ∧ (s.waiting ≠ [] → s.running = mlQueueConcurrency)

/-- The numeric value of a JSON number (other values read as 0). -/
def jNumVal : JValue → ℚ
  | JValue.num q => q
  | _ => 0

/-- The sum of the values of the `probabilities` field of a payload. -/
def probabilitiesSum (v : JValue) : ℚ :=
  match getField v "probabilities" with
  | JValue.obj fs => (fs.map (fun p => jNumVal p.2)).sum
  | _ => 0

/-- The fixed, exhaustive field set of the output JSON contract. -/
def contractFields : List String :=
  ["predicted_class", "confidence", "probabilities", "risk_score",
   "risk_level", "validation_confidence", "is_valid_ecg", "model_used"]

/-- A successful prediction payload carrying exactly the contract
fields. -/
def contractPayloadFields : List (String × JValue) :=
  [("predicted_class", JValue.str "NORM"),
   ("confidence", JValue.num 80),
   ("probabilities",
     JValue.obj [("CD", JValue.num (1/10)), ("HYP", JValue.num (1/10)),
                 ("MI", JValue.num (1/10)), ("NORM", JValue.num (6/10)),
                 ("STTC", JValue.num (1/10))]),
   ("risk_score", JValue.num 20),
   ("risk_level", JValue.str "Low"),
   ("validation_confidence", JValue.num 90),
   ("is_valid_ecg", JValue.bool true),
   ("model_used", JValue.str "CNN-GNN (Real Trained Model)")]

def contractPayload : JValue := JValue.obj contractPayloadFields

/-- Modelled from the spec: the core script `ml/predict_real.py` is not
part of the backend sources, so its result for an image judged non-ECG
is taken from the specification — a successful (zero-exit) JSON result
with `is_valid_ecg` false, `predicted_class` null, and no classifier
output. -/
def nonEcgResult : JValue :=
  JValue.obj [("predicted_class", JValue.null),
              ("validation_confidence", JValue.num 30),
              ("is_valid_ecg", JValue.bool false),
              ("model_used", JValue.str "ECG Validator")]

/-- A shape-valid payload whose class probabilities sum to 1/2 rather
than 1. -/
def badSumPayload : JValue :=
  JValue.obj [("predicted_class", JValue.str "NORM"),
              ("risk_level", JValue.str "Low"),
              ("risk_score", JValue.num 10),
              ("confidence", JValue.num 50),
              ("probabilities",
                JValue.obj [("CD", JValue.num (1/10)), ("HYP", JValue.num (1/10)),
                            ("MI", JValue.num (1/10)), ("NORM", JValue.num (1/10)),
                            ("STTC", JValue.num (1/10))])]

/-- A shape-valid payload with an arbitrary `probabilities` object. -/
def mkProbPayload (probs : List (String × JValue)) : JValue :=
  JValue.obj [("predicted_class", JValue.str "NORM"),
              ("risk_level", JValue.str "Low"),
              ("risk_score", JValue.num 10),
              ("confidence", JValue.num 50),
              ("probabilities", JValue.obj probs)]

/-- A failed job's response body: status `"error"`, a nonempty
human-readable message, and no `result` field. -/
def IsErrorBody (v : JValue) : Prop :=
  getField v "status" = JValue.str "error"
    ∧ (∃ m, getField v "message" = JValue.str m ∧ m ≠ "")
    ∧ getField v "result" = JValue.undefined

theorem schedStep_inv (run : Nat) (wait st sub : List Nat) (e : SchedEvent)
    (h : SchedInv ⟨run, wait, st, sub⟩) : SchedInv (schedStep ⟨run, wait, st, sub⟩ e) := by
  obtain ⟨h1, h2, h3⟩ := h
  simp only [SchedInv] at h1 h2 h3 ⊢
  cases e with
  | add j =>
    by_cases hr : run < mlQueueConcurrency
    · have hw : wait = [] := by
        by_contra hne
        have hfull := h3 hne
        omega
      subst hw
      simp only [schedStep, if_pos hr]
      refine ⟨by omega, ?_, ?_⟩
      · simp only [List.append_nil] at h2 ⊢
        rw [h2]
      · intro hne
        exact absurd rfl hne
    · simp only [schedStep, if_neg hr]
      refine ⟨h1, ?_, ?_⟩
      · rw [← List.append_assoc, h2]
      · intro _
        omega
  | finish =>
    cases run with
    | zero => exact ⟨h1, h2, h3⟩
    | succ r =>
      cases wait with
      | nil =>
        show SchedInv ⟨r, [], st, sub⟩
        refine ⟨show r ≤ mlQueueConcurrency by omega, ?_, ?_⟩
        · simpa using h2
        · intro hne
          exact absurd rfl hne
      | cons j rest =>
        have hfull := h3 (by simp)
        show SchedInv ⟨r + 1, rest, st ++ [j], sub⟩
        refine ⟨h1, ?_, ?_⟩
        · rw [List.append_assoc]
          simpa using h2
        · intro _
          exact hfull

theorem schedRun_inv_aux (events : List SchedEvent) (s : SchedState) (h : SchedInv s) :
    SchedInv (events.foldl schedStep s) := by
  induction events generalizing s with
  | nil => simpa using h
  | cons e t ih =>
    obtain ⟨run, wait, st, sub⟩ := s
    exact ih (schedStep ⟨run, wait, st, sub⟩ e) (schedStep_inv run wait st sub e h)

theorem predictHandler_effects (cwd fileBase64 : String) (f : UploadFile)
    (outcome : Except String String) (parsed : Option JValue) :
    (predictHandler cwd (some f) fileBase64 outcome parsed).effects
      = [FsEffect.readFile f.path, FsEffect.spawnPy (predictScriptPath cwd) [f.path]] := by
  cases outcome with
  | error e => rfl
  | ok raw =>
    cases parsed with
    | none => rfl
    | some j =>
      cases hv : validatePredictionResult j with
      | none => simp [predictHandler, hv]
      | some verr => simp [predictHandler, hv]

theorem setFieldList_keys_new (fs : List (String × JValue)) (k : String) (v : JValue)
    (h : k ∉ fs.map (fun p => p.1)) :
    (setFieldList fs k v).map (fun p => p.1) = fs.map (fun p => p.1) ++ [k] := by
  induction fs with
  | nil => simp [setFieldList]
  | cons a t ih =>
    obtain ⟨k0, v0⟩ := a
    simp only [List.map_cons, List.mem_cons] at h
    push_neg at h
    obtain ⟨h1, h2⟩ := h
    simp only [setFieldList]
    rw [if_neg (fun he : k0 = k => h1 he.symm)]
    simp only [List.map_cons, List.cons_append, List.cons.injEq, true_and]
    exact ih h2

/-- C1: at most `mlQueueConcurrency` (2) jobs of the prediction queue
run simultaneously after any event sequence, and jobs start in FIFO
submission order: the start history followed by the waiting queue is
exactly the submission history. -/
theorem c1_concurrency_bound_and_fifo (events : List SchedEvent) :
    (schedRun events).running ≤ mlQueueConcurrency
      ∧ (schedRun events).started ++ (schedRun events).waiting = (schedRun events).submitted := by
  have h : SchedInv (schedRun events) :=
    schedRun_inv_aux events schedInit
      ⟨Nat.zero_le _, rfl, fun hne => absurd rfl hne⟩
  exact ⟨h.1, h.2.1⟩

/-- C2: the backend rejects the spec's non-ECG result.  A zero-exit
payload with `is_valid_ecg` false and `predicted_class` null fails
`validatePredictionResult` and the route reports it on the error path
(HTTP 500, body status `"error"`), not as a success. -/
theorem c2_nonecg_rejected_as_error :
    validatePredictionResult nonEcgResult = some "predictedClass missing or invalid"
      ∧ (predictHandler "/app" (some ⟨"uploads/scan.png", "scan.png"⟩) "QUJD"
          (Except.ok "raw") (some nonEcgResult)).status = 500
      ∧ getField (predictHandler "/app" (some ⟨"uploads/scan.png", "scan.png"⟩) "QUJD"
          (Except.ok "raw") (some nonEcgResult)).body "status" = JValue.str "error"
      ∧ getField (predictHandler "/app" (some ⟨"uploads/scan.png", "scan.png"⟩) "QUJD"
          (Except.ok "raw") (some nonEcgResult)).body "message"
          = JValue.str "Invalid prediction payload" :=
  ⟨rfl, rfl, rfl, rfl⟩

/-- C3 counterexample: on a payload carrying exactly the contract
fields, the route's success result additionally carries `imagePath` and
`imageBase64`, so the returned object does not consist of the contract
fields alone. -/
theorem c3_extra_fields_counterexample :
    getField (predictHandler "/app" (some ⟨"uploads/a.png", "a.png"⟩) "QUJD"
        (Except.ok "raw") (some contractPayload)).body "status" = JValue.str "success"
      ∧ objKeys contractPayload = contractFields
      ∧ objKeys (getField (predictHandler "/app" (some ⟨"uploads/a.png", "a.png"⟩) "QUJD"
          (Except.ok "raw") (some contractPayload)).body "result")
          = contractFields ++ ["imagePath", "imageBase64"]
      ∧ "imagePath" ∉ contractFields ∧ "imageBase64" ∉ contractFields :=
  ⟨rfl, rfl, rfl, by decide, by decide⟩

/-- C3 amended: every successful prediction response returns the Python
payload with exactly two route-attached extra fields — `imagePath` and
`imageBase64` — appended after the contract fields. -/
theorem c3_result_is_payload_plus_image_fields (cwd fileBase64 raw : String) (f : UploadFile)
    (j : JValue) (h : validatePredictionResult j = none) :
    (predictHandler cwd (some f) fileBase64 (Except.ok raw) (some j)).status = 200
      ∧ getField (predictHandler cwd (some f) fileBase64 (Except.ok raw) (some j)).body "result"
          = objSet (objSet j "imagePath" (JValue.str ("/uploads/" ++ f.filename)))
              "imageBase64" (JValue.str ("data:image/png;base64," ++ fileBase64))
      ∧ (∀ fs, j = JValue.obj fs → fs.map (fun p => p.1) = contractFields →
          objKeys (getField (predictHandler cwd (some f) fileBase64
              (Except.ok raw) (some j)).body "result")
            = contractFields ++ ["imagePath", "imageBase64"]) := by
  refine ⟨?_, ?_, ?_⟩
  · simp [predictHandler, h]
  · simp [predictHandler, h, getField, lookupField]
  · intro fs hj hk
    subst hj
    have h1 : "imagePath" ∉ fs.map (fun p => p.1) := by
      rw [hk]; decide
    have e1 := setFieldList_keys_new fs "imagePath" (JValue.str ("/uploads/" ++ f.filename)) h1
    have h2 : "imageBase64"
        ∉ (setFieldList fs "imagePath" (JValue.str ("/uploads/" ++ f.filename))).map
            (fun p => p.1) := by
      rw [e1, hk]; decide
    have e2 := setFieldList_keys_new
      (setFieldList fs "imagePath" (JValue.str ("/uploads/" ++ f.filename)))
      "imageBase64" (JValue.str ("data:image/png;base64," ++ fileBase64)) h2
    simp [predictHandler, h, objSet, getField, lookupField, objKeys, e2, e1, hk]

/-- C3 witness: the amended statement evaluated on the concrete contract
payload. -/
theorem c3_amended_witness :
    validatePredictionResult contractPayload = none
      ∧ (predictHandler "/app" (some ⟨"uploads/a.png", "a.png"⟩) "QUJD"
          (Except.ok "raw") (some contractPayload)).status = 200
      ∧ objKeys (getField (predictHandler "/app" (some ⟨"uploads/a.png", "a.png"⟩) "QUJD"
          (Except.ok "raw") (some contractPayload)).body "result")
          = contractFields ++ ["imagePath", "imageBase64"] := by
  have h := c3_result_is_payload_plus_image_fields "/app" "QUJD" "raw"
    ⟨"uploads/a.png", "a.png"⟩ contractPayload rfl
  exact ⟨rfl, h.1, h.2.2 contractPayloadFields rfl rfl⟩

/-- C4 counterexample: a payload whose class probabilities sum to 1/2
(far outside the 1e-4 tolerance around 1) passes
`validatePredictionResult` and is returned on the success path, so the
post-inference check does not reject probability sums. -/
theorem c4_bad_sum_accepted_counterexample :
    validatePredictionResult badSumPayload = none
      ∧ probabilitiesSum badSumPayload = 1/2
      ∧ (1 : ℚ)/10000 < |probabilitiesSum badSumPayload - 1|
      ∧ (predictHandler "/app" (some ⟨"uploads/a.png", "a.png"⟩) "QUJD"
          (Except.ok "raw") (some badSumPayload)).status = 200
      ∧ getField (predictHandler "/app" (some ⟨"uploads/a.png", "a.png"⟩) "QUJD"
          (Except.ok "raw") (some badSumPayload)).body "status" = JValue.str "success" := by
  have hsum : probabilitiesSum badSumPayload = 1/2 := by
    simp [probabilitiesSum, badSumPayload, getField, lookupField, jNumVal]
    norm_num
  refine ⟨rfl, hsum, ?_, rfl, rfl⟩
  rw [hsum]
  have habs : |(1 : ℚ)/2 - 1| = 1/2 := by
    rw [abs_sub_comm]
    rw [abs_of_pos] <;> norm_num
  rw [habs]
  norm_num

/-- C4 amended: the post-inference check validates only the presence and
types of the scalar fields and that `probabilities` is an object when
present; it never inspects the probability values, so a payload is
accepted and returned as success whatever its probability sum. -/
theorem c4_validation_ignores_probability_values (probs : List (String × JValue)) :
    validatePredictionResult (mkProbPayload probs) = none
      ∧ (predictHandler "/app" (some ⟨"uploads/a.png", "a.png"⟩) "QUJD"
          (Except.ok "raw") (some (mkProbPayload probs))).status = 200 :=
  ⟨rfl, rfl⟩

/-- C5: every failing job — promise rejection (spawn error or non-zero
exit), unparseable stdout, or contract-violating payload — produces a
500 response whose body is a structured error payload with a nonempty
message and no `result` field. -/
theorem c5_failures_yield_error_payload (cwd fileBase64 : String) (f : UploadFile)
    (outcome : Except String String) (parsed : Option JValue)
    (h : (∃ e, outcome = Except.error e)
        ∨ (∃ raw, outcome = Except.ok raw ∧ parsed = none)
        ∨ (∃ raw j verr, outcome = Except.ok raw ∧ parsed = some j
            ∧ validatePredictionResult j = some verr)) :
    (predictHandler cwd (some f) fileBase64 outcome parsed).status = 500
      ∧ IsErrorBody (predictHandler cwd (some f) fileBase64 outcome parsed).body := by
  rcases h with ⟨e, he⟩ | ⟨raw, ho, hp⟩ | ⟨raw, j, verr, ho, hp, hv⟩
  · subst he
    exact ⟨rfl, rfl, ⟨"Prediction failed", rfl, by decide⟩, rfl⟩
  · subst ho
    subst hp
    exact ⟨rfl, rfl, ⟨"Invalid JSON returned by Python", rfl, by decide⟩, rfl⟩
  · subst ho
    subst hp
    refine ⟨?_, ?_, ⟨"Invalid prediction payload", ?_, by decide⟩, ?_⟩ <;>
      simp [predictHandler, hv, IsErrorBody, getField, lookupField]

/-- C5 witness: a concrete rejected job yields the structured error
payload. -/
theorem c5_witness :
    (predictHandler "/app" (some ⟨"uploads/a.png", "a.png"⟩) "QUJD"
        (Except.error "Python exited with code 1\nboom") none).status = 500
      ∧ IsErrorBody (predictHandler "/app" (some ⟨"uploads/a.png", "a.png"⟩) "QUJD"
          (Except.error "Python exited with code 1\nboom") none).body :=
  c5_failures_yield_error_payload "/app" "QUJD" ⟨"uploads/a.png", "a.png"⟩
    (Except.error "Python exited with code 1\nboom") none
    (Or.inl ⟨"Python exited with code 1\nboom", rfl⟩)

/-- C6: for a spawned child, a non-zero exit rejects the promise with a
message containing the exit code and the collected stderr, a zero exit
resolves with the trimmed stdout, and a rejection is surfaced as a 500
error response by a route that spawns the script exactly once (no
retry). -/
theorem c6_exit_semantics_and_no_retry (r : ChildRun) (h : r.spawnError = none) :
    (r.exitCode ≠ 0 →
        runPythonResult r
          = Except.error ("Python exited with code " ++ toString r.exitCode ++ "\n"
              ++ String.join r.stderrChunks))
      ∧ (r.exitCode = 0 → runPythonResult r = Except.ok (jsTrim (String.join r.stdoutChunks)))
      ∧ (∀ (cwd fileBase64 msg : String) (f : UploadFile) (parsed : Option JValue),
          (predictHandler cwd (some f) fileBase64 (Except.error msg) parsed).status = 500
            ∧ getField (predictHandler cwd (some f) fileBase64
                (Except.error msg) parsed).body "status" = JValue.str "error"
            ∧ getField (predictHandler cwd (some f) fileBase64
                (Except.error msg) parsed).body "details" = JValue.str msg
            ∧ List.countP
                (fun e => match e with | FsEffect.spawnPy _ _ => true | _ => false)
                (predictHandler cwd (some f) fileBase64 (Except.error msg) parsed).effects
                = 1) := by
  refine ⟨?_, ?_, ?_⟩
  · intro hne
    simp only [runPythonResult, h]
    rw [if_pos (by simpa using hne)]
  · intro h0
    simp [runPythonResult, h, h0]
  · intro cwd fileBase64 msg f parsed
    exact ⟨rfl, rfl, rfl, rfl⟩

/-- C6 witness: concrete runs exercising the non-zero and zero exit
paths, and a concrete rejection surfaced as an error response. -/
theorem c6_witness :
    runPythonResult ⟨none, 3, ["ignored"], ["boom"], 5⟩
        = Except.error ("Python exited with code 3" ++ "\n" ++ "boom")
      ∧ runPythonResult ⟨none, 0, ["ok"], ["noise"], 5⟩ = Except.ok "ok"
      ∧ (predictHandler "/app" (some ⟨"uploads/a.png", "a.png"⟩) "QUJD"
          (Except.error "Python exited with code 3\nboom") none).status = 500 := by
  refine ⟨?_, ?_, ?_⟩
  · have h := (c6_exit_semantics_and_no_retry ⟨none, 3, ["ignored"], ["boom"], 5⟩ rfl).1
      (by decide)
    simpa using h
  · exact (c6_exit_semantics_and_no_retry ⟨none, 0, ["ok"], ["noise"], 5⟩ rfl).2.1 rfl
  · exact ((c6_exit_semantics_and_no_retry ⟨none, 0, [], [], 0⟩ rfl).2.2 "/app" "QUJD"
      "Python exited with code 3\nboom" ⟨"uploads/a.png", "a.png"⟩ none).1

/-- C7: the route's spawn effect invokes the core script with exactly
one positional argument — the stored upload's filesystem path — the full
argv being interpreter, script, path; and a resolved value of
`runPython` is exactly the trimmed accumulated stdout, with stderr never
contributing. -/
theorem c7_single_arg_and_stdout_only (cwd fileBase64 pythonPath : String) (f : UploadFile)
    (outcome : Except String String) (parsed : Option JValue) (r : ChildRun) (s : String)
    (h : runPythonResult r = Except.ok s) :
    (predictHandler cwd (some f) fileBase64 outcome parsed).effects
        = [FsEffect.readFile f.path, FsEffect.spawnPy (predictScriptPath cwd) [f.path]]
      ∧ runPythonArgv pythonPath (predictScriptPath cwd) [f.path]
          = [pythonPath, predictScriptPath cwd, f.path]
      ∧ s = jsTrim (String.join r.stdoutChunks) := by
  refine ⟨predictHandler_effects cwd fileBase64 f outcome parsed, rfl, ?_⟩
  cases hs : r.spawnError with
  | some e => simp [runPythonResult, hs] at h
  | none =>
    by_cases hc : r.exitCode = 0
    · simp [runPythonResult, hs, hc] at h
      exact h.symm
    · rw [runPythonResult, hs] at h
      rw [if_pos (by simpa using hc)] at h
      exact absurd h (by simp)

/-- C7 witness: concrete route invocation and a concrete resolved run. -/
theorem c7_witness :
    (predictHandler "/app" (some ⟨"uploads/a.png", "a.png"⟩) "QUJD"
        (Except.ok "ok") none).effects
        = [FsEffect.readFile "uploads/a.png",
           FsEffect.spawnPy "/app/ml/predict_real.py" ["uploads/a.png"]]
      ∧ runPythonArgv "python3" "/app/ml/predict_real.py" ["uploads/a.png"]
          = ["python3", "/app/ml/predict_real.py", "uploads/a.png"]
      ∧ "ok" = jsTrim (String.join (["ok"] : List String)) := by
  have h := c7_single_arg_and_stdout_only "/app" "QUJD" "python3"
    ⟨"uploads/a.png", "a.png"⟩ (Except.ok "ok") none ⟨none, 0, ["ok"], ["noise"], 5⟩ "ok"
    rfl
  simpa using h

/-- C8 counterexample: there is no wall-clock bound past which a job's
execution is failed — for every candidate bound a longer-running child
that exits 0 still resolves successfully, so no timeout error kind
exists. -/
theorem c8_no_timeout_counterexample :
    ¬ ∃ T : Nat, ∀ r : ChildRun, r.durationMs > T →
        ∃ msg, runPythonResult r = Except.error msg := by
  rintro ⟨T, h⟩
  obtain ⟨msg, hmsg⟩ := h ⟨none, 0, ["ok"], [], T + 1⟩ (Nat.lt_succ_self T)
  simp [runPythonResult] at hmsg

/-- C8 amended: no per-job timeout is enforced anywhere — the `mlQueue`
is configured without a timeout option and the outcome of `runPython` is
independent of the job's wall-clock duration, so a job fails only via a
spawn error or a non-zero exit, never by elapsed time. -/
theorem c8_duration_independent (r : ChildRun) (d : Nat) :
    runPythonResult { r with durationMs := d } = runPythonResult r
      ∧ mlQueueTimeoutMs = none := by
  obtain ⟨se, ec, so, st, du⟩ := r
  exact ⟨rfl, rfl⟩

/-- C9 counterexample: a concrete successful run performs no unlink of
the uploaded image — its effects are exactly the read and the spawn —
and the cleanup sweep run at completion time does not delete the fresh
upload either, since it only removes files older than one day. -/
theorem c9_no_release_counterexample :
    (predictHandler "/app" (some ⟨"uploads/a.png", "a.png"⟩) "QUJD"
        (Except.ok "raw") (some contractPayload)).status = 200
      ∧ (predictHandler "/app" (some ⟨"uploads/a.png", "a.png"⟩) "QUJD"
          (Except.ok "raw") (some contractPayload)).effects
          = [FsEffect.readFile "uploads/a.png",
             FsEffect.spawnPy "/app/ml/predict_real.py" ["uploads/a.png"]]
      ∧ FsEffect.unlink "uploads/a.png"
          ∉ (predictHandler "/app" (some ⟨"uploads/a.png", "a.png"⟩) "QUJD"
              (Except.ok "raw") (some contractPayload)).effects
      ∧ cleanOldUploads 1700000000000 [("uploads/a.png", 1700000000000)] = [] := by
  refine ⟨rfl, rfl, ?_, by decide⟩
  rw [predictHandler_effects]
  decide

/-- C9 amended: the predict route never deletes the uploaded file on any
path; uploads are reclaimed only by the periodic `cleanOldUploads`
sweep, which removes a file exactly when its mtime is older than the
one-day cutoff. -/
theorem c9_cleanup_policy (cwd fileBase64 : String) (file : Option UploadFile)
    (outcome : Except String String) (parsed : Option JValue) (p name : String)
    (now mtime : Int) :
    FsEffect.unlink p ∉ (predictHandler cwd file fileBase64 outcome parsed).effects
      ∧ (name ∈ cleanOldUploads now [(name, mtime)] ↔ mtime < now - MAX_FILE_AGE_MS) := by
  constructor
  · cases file with
    | none => simp [predictHandler]
    | some f =>
      rw [predictHandler_effects]
      intro hmem
      rcases List.mem_cons.mp hmem with h | h
      · exact FsEffect.noConfusion h
      · rcases List.mem_singleton.mp h with h2
        exact FsEffect.noConfusion h2
  · by_cases hc : mtime < now - MAX_FILE_AGE_MS
    · simp [cleanOldUploads, hc]
    · simp [cleanOldUploads, hc]

/-- C9 witness: the cleanup characterization evaluated at a concrete
aged file alongside a route invocation with no file. -/
theorem c9_cleanup_policy_witness :
    FsEffect.unlink "uploads/z.png"
        ∉ (predictHandler "/app" none "QUJD" (Except.error "e") none).effects
      ∧ ("old.png" ∈ cleanOldUploads 100000000000 [("old.png", 0)]
          ↔ (0 : Int) < 100000000000 - MAX_FILE_AGE_MS) :=
  c9_cleanup_policy "/app" "QUJD" none (Except.error "e") none "uploads/z.png" "old.png"
    100000000000 0

/-- C10: a Python process is spawned for an upload exactly when both the
lowercased original-name extension and the declared MIME type pass the
allowed-types test (substring match of jpeg, jpg, png or gif) and the
size is within 10·1024·1024 bytes; any violating upload is answered with
an error response (400 or 413-mapped 500) carrying `success: false`
while no route effects — in particular no spawn — take place. -/
theorem c10_upload_gate (cwd originalname mimetype fileBase64 : String) (size : Nat)
    (stored : UploadFile) (outcome : Except String String) (parsed : Option JValue) :
    ((¬ (allowedTypesTest (toLowerStr (extname originalname)) = true
          ∧ allowedTypesTest mimetype = true ∧ size ≤ maxFileSizeBytes)) →
        (predictRequest cwd originalname mimetype size stored fileBase64 outcome parsed).effects
            = []
          ∧ ((predictRequest cwd originalname mimetype size stored fileBase64
              outcome parsed).status = 400
            ∨ (predictRequest cwd originalname mimetype size stored fileBase64
                outcome parsed).status = 500)
          ∧ getField (predictRequest cwd originalname mimetype size stored fileBase64
              outcome parsed).body "success" = JValue.bool false)
      ∧ ((allowedTypesTest (toLowerStr (extname originalname)) = true
          ∧ allowedTypesTest mimetype = true ∧ size ≤ maxFileSizeBytes) →
          predictRequest cwd originalname mimetype size stored fileBase64 outcome parsed
            = predictHandler cwd (some stored) fileBase64 outcome parsed) := by
  constructor
  · intro hviol
    by_cases hf : fileFilterAccepts originalname mimetype
    · have hsz : ¬ size ≤ maxFileSizeBytes := by
        rcases Bool.and_eq_true _ _ |>.mp (by simpa [fileFilterAccepts] using hf)
          with ⟨h1, h2⟩
        intro hle
        exact hviol ⟨h1, h2, hle⟩
      simp [predictRequest, multerOutcome, hf, Nat.lt_of_not_le hsz, globalErrorResponse,
        getField, lookupField]
    · simp [predictRequest, multerOutcome, hf, globalErrorResponse, getField, lookupField]
  · intro ⟨h1, h2, h3⟩
    have hf : fileFilterAccepts originalname mimetype = true := by
      simp [fileFilterAccepts, h1, h2]
    simp [predictRequest, multerOutcome, hf, Nat.not_lt_of_le h3]

/-- C10 witness: a text upload is rejected without any spawn, and a
valid PNG upload reaches the handler. -/
theorem c10_witness :
    ((predictRequest "/app" "notes.txt" "text/plain" 5 ⟨"uploads/n.txt", "n.txt"⟩ "QUJD"
        (Except.error "e") none).effects = []
      ∧ ((predictRequest "/app" "notes.txt" "text/plain" 5 ⟨"uploads/n.txt", "n.txt"⟩ "QUJD"
          (Except.error "e") none).status = 400
        ∨ (predictRequest "/app" "notes.txt" "text/plain" 5 ⟨"uploads/n.txt", "n.txt"⟩ "QUJD"
            (Except.error "e") none).status = 500)
      ∧ getField (predictRequest "/app" "notes.txt" "text/plain" 5 ⟨"uploads/n.txt", "n.txt"⟩
          "QUJD" (Except.error "e") none).body "success" = JValue.bool false)
      ∧ predictRequest "/app" "scan.png" "image/png" 1000 ⟨"uploads/s.png", "s.png"⟩ "QUJD"
          (Except.error "e") none
          = predictHandler "/app" (some ⟨"uploads/s.png", "s.png"⟩) "QUJD"
              (Except.error "e") none :=
  ⟨(c10_upload_gate "/app" "notes.txt" "text/plain" "QUJD" 5 ⟨"uploads/n.txt", "n.txt"⟩
      (Except.error "e") none).1 (by decide),
   (c10_upload_gate "/app" "scan.png" "image/png" "QUJD" 1000 ⟨"uploads/s.png", "s.png"⟩
      (Except.error "e") none).2 (by decide)⟩
